import Mathlib

/-!
Verification of the WriteWell note-taking app's domain store and persistence
adapter, shallowly embedded from the TypeScript source
(`contexts/NotesContext.tsx`, `lib/storage.ts`, `components/Editor.tsx`,
`types/index.ts`).

Conventions of the embedding:
* JavaScript `Date.now()` is passed explicitly as a `now : Nat` argument to
  every operation that reads the clock in the source.
* `string | null` fields become `Option String`; JS arrays become `List`.
* TypeScript `Partial<T>` update maps become structures of `Option` fields
  (`none` = key absent from the update object).
* React `useState` state lives in one explicit `StoreState` record; each
  provider callback becomes a pure function `StoreState → ... → StoreState`.
-/

/-- `types/index.ts` interface `Note`. -/
structure Note where
  id : String
  title : String
  content : String
  folderId : Option String
  tags : List String
  createdAt : Nat
  updatedAt : Nat
  fontSize : Int
deriving Repr, DecidableEq

/-- `types/index.ts` interface `Folder`. -/
structure Folder where
  id : String
  name : String
  parentId : Option String
  createdAt : Nat
deriving Repr, DecidableEq

/-- `types/index.ts` interface `Tag`. -/
structure Tag where
  id : String
  name : String
  color : Option String
deriving Repr, DecidableEq

/-- The `useState` pieces of `NotesProvider` (`contexts/NotesContext.tsx`):
the three collections plus the selection state. -/
structure StoreState where
  notes : List Note
  folders : List Folder
  tags : List Tag
  selectedNoteId : Option String
  selectedFolderId : Option String
deriving Repr, DecidableEq

/-- The initial provider state (`useState([])` / `useState(null)`). -/
def emptyStore : StoreState :=
  { notes := [], folders := [], tags := [], selectedNoteId := none, selectedFolderId := none }

/-- TypeScript `Partial<Note>`: an update object in which every key may be
absent. -/
structure NoteUpdates where
  id : Option String := none
  title : Option String := none
  content : Option String := none
  folderId : Option (Option String) := none
  tags : Option (List String) := none
  createdAt : Option Nat := none
  updatedAt : Option Nat := none
  fontSize : Option Int := none
deriving Repr, DecidableEq

/-- TypeScript `Partial<Folder>`. -/
structure FolderUpdates where
  id : Option String := none
  name : Option String := none
  parentId : Option (Option String) := none
  createdAt : Option Nat := none
deriving Repr, DecidableEq

/-- The object spread `{ ...note, ...updates, updatedAt: Date.now() }` from
`updateNote`: every key present in `updates` overrides the note's field, and
the trailing literal always overrides `updatedAt` with the current time (so a
`updatedAt` key inside `updates` is discarded by the spread order). -/
def applyNoteUpdates (n : Note) (u : NoteUpdates) (now : Nat) : Note :=
  { id := u.id.getD n.id
    title := u.title.getD n.title
    content := u.content.getD n.content
    folderId := u.folderId.getD n.folderId
    tags := u.tags.getD n.tags
    createdAt := u.createdAt.getD n.createdAt
    updatedAt := now
    fontSize := u.fontSize.getD n.fontSize }

/-- The object spread `{ ...folder, ...updates }` from `updateFolder`. -/
def applyFolderUpdates (f : Folder) (u : FolderUpdates) : Folder :=
  { id := u.id.getD f.id
    name := u.name.getD f.name
    parentId := u.parentId.getD f.parentId
    createdAt := u.createdAt.getD f.createdAt }

/-- `NotesProvider.createNote`: builds a note with id `Date.now().toString()`,
default fields, appends it, selects it, and returns it. -/
def createNote (st : StoreState) (folderId : Option String) (now : Nat) :
    Note × StoreState :=
  let newNote : Note :=
    { id := toString now
      title := "Untitled Note"
      content := ""
      folderId := folderId
      tags := []
      createdAt := now
      updatedAt := now
      fontSize := 16 }
  (newNote,
    { st with notes := st.notes ++ [newNote], selectedNoteId := some newNote.id })

/-- `NotesProvider.updateNote`: maps over the notes, merging the update object
into the note whose id matches. -/
def updateNote (st : StoreState) (id : String) (u : NoteUpdates) (now : Nat) :
    StoreState :=
  { st with
    notes := st.notes.map (fun note =>
      if note.id = id then applyNoteUpdates note u now else note) }

/-- `NotesProvider.deleteNote`: filters the note out and clears the selection
when it was selected. -/
def deleteNote (st : StoreState) (id : String) : StoreState :=
  { st with
    notes := st.notes.filter (fun note => note.id ≠ id)
    selectedNoteId :=
      if st.selectedNoteId = some id then none else st.selectedNoteId }

/-- `NotesProvider.createFolder`. -/
def createFolder (st : StoreState) (name : String) (parentId : Option String)
    (now : Nat) : Folder × StoreState :=
  let newFolder : Folder :=
    { id := toString now, name := name, parentId := parentId, createdAt := now }
  (newFolder, { st with folders := st.folders ++ [newFolder] })

/-- `NotesProvider.updateFolder`. -/
def updateFolder (st : StoreState) (id : String) (u : FolderUpdates) :
    StoreState :=
  { st with
    folders := st.folders.map (fun folder =>
      if folder.id = id then applyFolderUpdates folder u else folder) }

/-- `NotesProvider.deleteFolder`: moves notes of the folder to the root
(`folderId = null`), filters the folder out, and clears the folder selection
when it was selected. -/
def deleteFolder (st : StoreState) (id : String) : StoreState :=
  { st with
    notes := st.notes.map (fun note =>
      if note.folderId = some id then { note with folderId := none } else note)
    folders := st.folders.filter (fun folder => folder.id ≠ id)
    selectedFolderId :=
      if st.selectedFolderId = some id then none else st.selectedFolderId }

/-- JS `String.prototype.toLowerCase()`: lowercases the string character by
character. -/
def jsToLower (s : String) : String := String.mk (s.data.map Char.toLower)

/-- `NotesProvider.createTag`: case-insensitive lookup via
`tags.find((t) => t.name.toLowerCase() === name.toLowerCase())`; returns the
existing tag untouched, otherwise appends a fresh tag. -/
def createTag (st : StoreState) (name : String) (now : Nat) : Tag × StoreState :=
  match st.tags.find? (fun t => jsToLower t.name = jsToLower name) with
  | some existingTag => (existingTag, st)
  | none =>
      let newTag : Tag := { id := toString now, name := name, color := none }
      (newTag, { st with tags := st.tags ++ [newTag] })

/-- `NotesProvider.deleteTag`: strips the deleted tag's name from every note's
`tags` list (the name is looked up in the pre-delete tag collection; an
unknown id keeps every name), then filters the tag out. -/
def deleteTag (st : StoreState) (id : String) : StoreState :=
  { st with
    notes := st.notes.map (fun note =>
      { note with
        tags := note.tags.filter (fun tagName =>
          match st.tags.find? (fun t => t.id = id) with
          | some t => tagName ≠ t.name
          | none => true) })
    tags := st.tags.filter (fun t => t.id ≠ id) }

/-- `NotesProvider.getNotesByFolder`. -/
def getNotesByFolder (st : StoreState) (folderId : Option String) : List Note :=
  st.notes.filter (fun note => note.folderId = folderId)

/-- `NotesProvider.getNotesByTag`. -/
def getNotesByTag (st : StoreState) (tagName : String) : List Note :=
  st.notes.filter (fun note => note.tags.contains tagName)

/-- `components/Editor.tsx` constant `MIN_FONT_SIZE`. -/
def MIN_FONT_SIZE : Int := 12

/-- `components/Editor.tsx` constant `MAX_FONT_SIZE`. -/
def MAX_FONT_SIZE : Int := 48

/-- `components/Editor.tsx` constant `DEFAULT_FONT_SIZE`. -/
def DEFAULT_FONT_SIZE : Int := 16

/-- `Editor.handleFontSizeChange`: the new local font size is
`Math.max(MIN_FONT_SIZE, Math.min(MAX_FONT_SIZE, prev + delta))`. -/
def handleFontSizeChange (prev delta : Int) : Int :=
  max MIN_FONT_SIZE (min MAX_FONT_SIZE (prev + delta))

/-- The editor's font-size auto-save path: `handleFontSizeChange` updates the
local `fontSize` state, and the `useEffect` on `[fontSize, ...]` then runs
`updateNote(selectedNoteId, { fontSize })`. -/
def applyFontSizeChange (st : StoreState) (selectedNoteId : String)
    (prev delta : Int) (now : Nat) : StoreState :=
  updateNote st selectedNoteId
    { fontSize := some (handleFontSizeChange prev delta) } now

/-! ### Persistence adapter (`lib/storage.ts`)

The serialized values live in the browser's `localStorage` and go through the
external built-ins `JSON.stringify` / `JSON.parse`.  The repository's code
never inspects the serialized text itself — it only passes it between
`localStorage` (an opaque key-value primitive) and `JSON.parse` — so the text
layer is modelled by its observable behavior: a stored string is either
well-formed JSON text, represented by the JSON value it parses to
(`JsText.json`), or text that `JSON.parse` rejects (`JsText.garbage`, keeping
the raw string so that JS truthiness of the value is still defined).
`JSON.stringify` always produces well-formed, non-empty JSON text whose parse
is the stringified value. -/

/-- The JSON data model (values produced by `JSON.parse`).  All numbers
occurring in the persisted entities are integers (millisecond timestamps and
pixel sizes), so `num` carries `Int`. -/
inductive Json where
  | null : Json
  | bool (b : Bool) : Json
  | num (n : Int) : Json
  | str (s : String) : Json
  | arr (elems : List Json) : Json
  | obj (fields : List (String × Json)) : Json
deriving Repr

/-- A string stored in `localStorage`, quotiented by `JSON.parse` behavior:
either well-formed JSON text (identified by its parse) or unparsable text. -/
inductive JsText where
  | json (j : Json) : JsText
  | garbage (s : String) : JsText
deriving Repr

/-- JS truthiness of the stored string (`data ? ... : ...` in `storage.ts`):
the empty string is falsy, everything else truthy.  `JSON.stringify` output is
never empty. -/
def JsText.isTruthy : JsText → Bool
  | .json _ => true
  | .garbage s => s ≠ ""

/-- External `JSON.stringify` on the quotient: its output is well-formed JSON
text parsing back to the input value. -/
def jsonStringify (j : Json) : JsText := JsText.json j

/-- External `JSON.parse` on the quotient: `error` is a thrown `SyntaxError`. -/
def jsonParse : JsText → Except Unit Json
  | .json j => .ok j
  | .garbage _ => .error ()

/-- The browser's `localStorage`: a key-value map with `getItem`/`setItem`. -/
def LocalStorage : Type := List (String × JsText)

/-- An empty `localStorage`. -/
def LocalStorage.empty : LocalStorage := []

/-- `localStorage.getItem(key)`; `none` is JS `null` (key absent). -/
def LocalStorage.getItem (ls : LocalStorage) (key : String) : Option JsText :=
  (ls.find? (fun p => p.1 = key)).map (fun p => p.2)

/-- `localStorage.setItem(key, value)`: overwrites any previous value. -/
def LocalStorage.setItem (ls : LocalStorage) (key : String) (v : JsText) :
    LocalStorage :=
  (key, v) :: ls.filter (fun p => p.1 ≠ key)

/-- `storage.ts` `STORAGE_KEYS.NOTES`. -/
def NOTES_KEY : String := "writewell_notes"

/-- `storage.ts` `STORAGE_KEYS.FOLDERS`. -/
def FOLDERS_KEY : String := "writewell_folders"

/-- `storage.ts` `STORAGE_KEYS.TAGS`. -/
def TAGS_KEY : String := "writewell_tags"

/-- The JSON image of a `Note` under `JSON.stringify` (the §6 entity shape:
`folderId` serialized as string or null, timestamps as integer milliseconds). -/
def noteToJson (n : Note) : Json :=
  Json.obj
    [("id", Json.str n.id),
     ("title", Json.str n.title),
     ("content", Json.str n.content),
     ("folderId", match n.folderId with
                  | none => Json.null
                  | some f => Json.str f),
     ("tags", Json.arr (n.tags.map Json.str)),
     ("createdAt", Json.num n.createdAt),
     ("updatedAt", Json.num n.updatedAt),
     ("fontSize", Json.num n.fontSize)]

/-- A non-negative JSON number read back as a millisecond timestamp. -/
def jsonNumToNat : Int → Option Nat
  | Int.ofNat n => some n
  | Int.negSucc _ => none

/-- Reading a JSON array of strings back as a `List String`. -/
def strListFromJson : List Json → Option (List String)
  | [] => some []
  | Json.str s :: rest =>
      match strListFromJson rest with
      | some ss => some (s :: ss)
      | none => none
  | _ => none

/-- Reading a parsed JSON value back as a `Note`.  `storage.ts` performs an
unchecked TypeScript cast here (`JSON.parse(data)` typed as `Note[]`); the
parsed value is usable as a `Note` exactly when it has the serialized entity
shape, which is what this decoder accepts. -/
def noteFromJson : Json → Option Note
  | Json.obj
      [("id", Json.str id),
       ("title", Json.str title),
       ("content", Json.str content),
       ("folderId", fj),
       ("tags", Json.arr tagsJson),
       ("createdAt", Json.num c),
       ("updatedAt", Json.num u),
       ("fontSize", Json.num fs)] =>
      match fj, strListFromJson tagsJson, jsonNumToNat c, jsonNumToNat u with
      | Json.null, some tags, some c', some u' =>
          some { id := id, title := title, content := content,
                 folderId := none, tags := tags,
                 createdAt := c', updatedAt := u', fontSize := fs }
      | Json.str f, some tags, some c', some u' =>
          some { id := id, title := title, content := content,
                 folderId := some f, tags := tags,
                 createdAt := c', updatedAt := u', fontSize := fs }
      | _, _, _, _ => none
  | _ => none

/-- Element-wise reading of a parsed JSON array as notes. -/
def notesFromJsonList : List Json → Option (List Note)
  | [] => some []
  | j :: rest =>
      match noteFromJson j, notesFromJsonList rest with
      | some n, some ns => some (n :: ns)
      | _, _ => none

/-- Reading a parsed JSON value back as a `Note` array. -/
def notesFromJson : Json → Option (List Note)
  | Json.arr elems => notesFromJsonList elems
  | _ => none

/-- The result of a load through the persistence adapter.  `value` is a
normal return; `untyped` is the unchecked-cast case where `JSON.parse`
succeeded but the value does not have the entity shape (the TS code would
return it anyway under a lying type); `thrown` is a propagated `JSON.parse`
exception. -/
inductive LoadResult (α : Type) where
  | value (a : α) : LoadResult α
  | untyped (j : Json) : LoadResult α
  | thrown : LoadResult α
deriving Repr

/-- `storage.saveNotes`: `localStorage.setItem(NOTES, JSON.stringify(notes))`. -/
def storageSaveNotes (ls : LocalStorage) (notes : List Note) : LocalStorage :=
  ls.setItem NOTES_KEY (jsonStringify (Json.arr (notes.map noteToJson)))

/-- `storage.getNotes`: `const data = localStorage.getItem(NOTES);
return data ? JSON.parse(data) : [];` — note there is no try/catch around
`JSON.parse`. -/
def storageGetNotes (ls : LocalStorage) : LoadResult (List Note) :=
  match ls.getItem NOTES_KEY with
  | none => .value []
  | some data =>
      if data.isTruthy then
        match jsonParse data with
        | .error _ => .thrown
        | .ok j =>
            match notesFromJson j with
            | some ns => .value ns
            | none => .untyped j
      else .value []

/-! ### General helper lemmas -/

/-- `List.find?` only depends on the predicate extensionally. -/
theorem find?_ext {α : Type} (l : List α) (p q : α → Bool) (h : ∀ x, p x = q x) :
    l.find? p = l.find? q := by
  induction l with
  | nil => rfl
  | cons a t ih => simp only [List.find?_cons, h, ih]

/-- Mapping a function that fixes every element of a list is the identity. -/
theorem map_eq_self {α : Type} (l : List α) (f : α → α) (h : ∀ a ∈ l, f a = a) :
    l.map f = l := by
  induction l with
  | nil => rfl
  | cons a t ih =>
      simp only [List.map_cons]
      rw [h a (by simp), ih (fun x hx => h x (by simp [hx]))]

/-- A map composed after a transformation that preserves an observation `g`
leaves the mapped observations unchanged. -/
theorem map_eq_self' {α β : Type} (l : List α) (f : α → α) (g : α → β)
    (h : ∀ a ∈ l, g (f a) = g a) : l.map (g ∘ f) = l.map g := by
  induction l with
  | nil => rfl
  | cons a t ih =>
      simp only [List.map_cons, Function.comp]
      rw [h a (by simp), ih (fun x hx => h x (by simp [hx]))]

/-- Filtering with a predicate every element satisfies is the identity. -/
theorem filter_eq_self_of {α : Type} (l : List α) (p : α → Bool)
    (h : ∀ a ∈ l, p a = true) : l.filter p = l :=
  List.filter_eq_self.mpr h

/-- When the tag ids are pairwise distinct, looking a member tag up by its id
finds exactly that tag. -/
theorem find?_id_of_nodup (l : List Tag) (T : Tag)
    (hnd : (l.map Tag.id).Nodup) (hT : T ∈ l) :
    l.find? (fun t => t.id = T.id) = some T := by
  induction l with
  | nil => cases hT
  | cons a rest ih =>
      simp only [List.map_cons, List.nodup_cons] at hnd
      rcases List.mem_cons.mp hT with rfl | hmem
      · simp [List.find?_cons]
      · by_cases ha : a.id = T.id
        · exact absurd (ha ▸ List.mem_map.mpr ⟨T, hmem, rfl⟩) hnd.1
        · simp [List.find?_cons, ha, ih hnd.2 hmem]

/-- The three entity collections of a store state (the persisted data, as
opposed to the transient selection state). -/
def collections (st : StoreState) : List Note × List Folder × List Tag :=
  (st.notes, st.folders, st.tags)

/-! ### Serialization round-trip lemmas -/

/-- Reading back an encoded string array recovers the strings. -/
theorem strListFromJson_map_str (ss : List String) :
    strListFromJson (ss.map Json.str) = some ss := by
  induction ss with
  | nil => rfl
  | cons s rest ih => simp [strListFromJson, ih]

/-- Reading back an encoded note recovers the note, field for field. -/
theorem noteFromJson_noteToJson (n : Note) :
    noteFromJson (noteToJson n) = some n := by
  obtain ⟨id, title, content, folderId, tags, createdAt, updatedAt, fontSize⟩ := n
  cases folderId with
  | none => simp [noteToJson, noteFromJson, strListFromJson_map_str, jsonNumToNat]
  | some f => simp [noteToJson, noteFromJson, strListFromJson_map_str, jsonNumToNat]

/-- Reading back an encoded note array recovers the notes. -/
theorem notesFromJsonList_map (ns : List Note) :
    notesFromJsonList (ns.map noteToJson) = some ns := by
  induction ns with
  | nil => rfl
  | cons n rest ih => simp [notesFromJsonList, noteFromJson_noteToJson, ih]

/-! ### Claim C1 — deleting a folder reassigns its notes to the root -/

/-- C1: for every folder `F` in the store, after `deleteFolder(F.id)` no note
has `folderId = F.id`; the note count is unchanged; and positionally, every
note that referenced `F` now has `folderId = null` with all other fields
intact, while every other note is unchanged. -/
theorem deleteFolder_reassigns (st : StoreState) (F : Folder)
    (_hF : F ∈ st.folders) :
    (∀ n ∈ (deleteFolder st F.id).notes, n.folderId ≠ some F.id) ∧
    (deleteFolder st F.id).notes.length = st.notes.length ∧
    (∀ (i : Nat) (n : Note), st.notes[i]? = some n →
      (n.folderId = some F.id →
        (deleteFolder st F.id).notes[i]? = some { n with folderId := none }) ∧
      (n.folderId ≠ some F.id → (deleteFolder st F.id).notes[i]? = some n)) := by
  refine ⟨?_, ?_, ?_⟩
  · intro n hn
    simp only [deleteFolder, List.mem_map] at hn
    obtain ⟨m, hm, rfl⟩ := hn
    by_cases h : m.folderId = some F.id <;> simp [h]
  · simp [deleteFolder]
  · intro i n hin
    constructor <;> intro h <;> simp [deleteFolder, List.getElem?_map, hin, h]

/-- The concrete folder used to witness C1. -/
def c1Folder : Folder := { id := "f1", name := "Drafts", parentId := none, createdAt := 1 }

/-- A note filed under the C1 witness folder. -/
def c1NoteA : Note :=
  { id := "n1", title := "Untitled Note", content := "", folderId := some "f1",
    tags := [], createdAt := 2, updatedAt := 2, fontSize := 16 }

/-- A root note untouched by the C1 witness deletion. -/
def c1NoteB : Note :=
  { id := "n2", title := "Untitled Note", content := "", folderId := none,
    tags := [], createdAt := 3, updatedAt := 3, fontSize := 16 }

/-- The concrete store used to witness C1. -/
def c1Store : StoreState :=
  { notes := [c1NoteA, c1NoteB], folders := [c1Folder], tags := [],
    selectedNoteId := none, selectedFolderId := none }

/-- C1 witness: the hypothesis holds for `c1Folder` in `c1Store`, and the
deletion keeps the note count at 2. -/
theorem deleteFolder_reassigns_witness :
    c1Folder ∈ c1Store.folders ∧
    (deleteFolder c1Store c1Folder.id).notes.length = c1Store.notes.length :=
  ⟨by decide, (deleteFolder_reassigns c1Store c1Folder (by decide)).2.1⟩

/-! ### Claim C2 — load on absent or unparsable data

`storage.getNotes` returns `[]` when the key is absent, but it calls
`JSON.parse` with no `try`/`catch`, so unparsable stored text makes the
exception propagate out of the load instead of degrading to `[]`. -/

/-- C2: loading with the notes key absent returns the empty list, but loading
unparsable stored text under the notes key propagates the `JSON.parse`
exception out of `storage.getNotes` (the claim says it must also return the
empty list). -/
theorem getNotes_unparsable_throws :
    storageGetNotes LocalStorage.empty = LoadResult.value [] ∧
    storageGetNotes (LocalStorage.empty.setItem NOTES_KEY (JsText.garbage "corrupt")) =
      LoadResult.thrown :=
  ⟨rfl, rfl⟩

/-! ### Claim C3 — note ids under same-millisecond creation

`createNote` derives the id from `Date.now().toString()`, so two notes
created within the same millisecond receive the same id. -/

/-- C3: two `createNote` calls with the same `Date.now()` value (1000) yield
two notes that both carry the id `"1000"`, so the id-uniqueness invariant the
claim states is violated by the code. -/
theorem createNote_same_ms_duplicate :
    ((createNote (createNote emptyStore none 1000).2 none 1000).2.notes.map Note.id =
      ["1000", "1000"]) ∧
    ¬ ((createNote (createNote emptyStore none 1000).2 none 1000).2.notes.map
        Note.id).Nodup := by
  decide

/-! ### Claim C4 — font-size updates are clamped to [12, 48] -/

/-- The clamp performed by `Editor.handleFontSizeChange` saturates the
requested size `prev + delta` at the nearest bound of `[12, 48]`. -/
theorem handleFontSizeChange_clamps (prev delta : Int) :
    (prev + delta < 12 → handleFontSizeChange prev delta = 12) ∧
    (48 < prev + delta → handleFontSizeChange prev delta = 48) ∧
    (12 ≤ prev + delta → prev + delta ≤ 48 →
      handleFontSizeChange prev delta = prev + delta) := by
  unfold handleFontSizeChange MIN_FONT_SIZE MAX_FONT_SIZE
  refine ⟨fun h => ?_, fun h => ?_, fun h1 h2 => ?_⟩ <;> omega

/-- C4: after the editor's font-size update path runs (clamp in
`handleFontSizeChange`, then the auto-save `updateNote` with the clamped
value), the selected note's stored `fontSize` is 12 when the requested value
`prev + delta` is below 12, 48 when it is above 48, and the requested value
itself when it is in range. -/
theorem fontSize_update_clamped (st : StoreState) (nid : String)
    (prev delta : Int) (now : Nat) :
    ∀ n ∈ (applyFontSizeChange st nid prev delta now).notes, n.id = nid →
      (prev + delta < 12 → n.fontSize = 12) ∧
      (48 < prev + delta → n.fontSize = 48) ∧
      (12 ≤ prev + delta → prev + delta ≤ 48 → n.fontSize = prev + delta) := by
  intro n hn hid
  simp only [applyFontSizeChange, updateNote, List.mem_map] at hn
  obtain ⟨m, hm, rfl⟩ := hn
  by_cases h : m.id = nid
  · have hfs : (if m.id = nid then
        applyNoteUpdates m { fontSize := some (handleFontSizeChange prev delta) } now
      else m).fontSize = handleFontSizeChange prev delta := by
      simp [h, applyNoteUpdates]
    rw [hfs]
    exact handleFontSizeChange_clamps prev delta
  · simp only [if_neg h] at hid ⊢
    exact absurd hid h

/-- The note whose font size the C4 witness updates. -/
def c4Note : Note :=
  { id := "n1", title := "t", content := "", folderId := none, tags := [],
    createdAt := 0, updatedAt := 0, fontSize := 16 }

/-- The concrete store used to witness C4. -/
def c4Store : StoreState :=
  { notes := [c4Note], folders := [], tags := [],
    selectedNoteId := some "n1", selectedFolderId := none }

/-- The note as stored after the C4 witness update (requested size 6 is
clamped to 12). -/
def c4Updated : Note := { c4Note with updatedAt := 5, fontSize := 12 }

/-- C4 witness: requesting `16 - 10 = 6` (below 12) stores exactly 12 on the
selected note. -/
theorem fontSize_update_clamped_witness :
    c4Updated ∈ (applyFontSizeChange c4Store "n1" 16 (-10) 5).notes ∧
    (16 + (-10) : Int) < 12 ∧
    c4Updated.fontSize = 12 :=
  ⟨by decide, by decide,
    (fontSize_update_clamped c4Store "n1" 16 (-10) 5 c4Updated (by decide)
      (by decide)).1 (by decide)⟩

/-! ### Claim C5 — case-insensitive tag creation

`createTag` looks tags up case-insensitively and only inserts on a miss, so a
pair of calls with names equal up to case always returns the same tag id.
The collection, however, grows by one only when no case-matching tag existed
beforehand; when one already exists, it grows by zero — not by one as the
claim states for every store state. -/

/-- The pre-existing tag that falsifies C5 as stated. -/
def c5Tag : Tag := { id := "t1", name := "WORK", color := none }

/-- A store already containing a tag that case-matches `"Work"`. -/
def c5Store : StoreState :=
  { notes := [], folders := [], tags := [c5Tag],
    selectedNoteId := none, selectedFolderId := none }

/-- C5 counterexample: starting from a store whose tag collection already
contains `"WORK"`, calling `createTag "Work"` then `createTag "work"` leaves
the collection at its old size, so it does not grow by exactly one. -/
theorem createTag_pair_no_growth_counterexample :
    (createTag (createTag c5Store "Work" 5).2 "work" 6).2.tags.length =
      c5Store.tags.length ∧
    ¬ (createTag (createTag c5Store "Work" 5).2 "work" 6).2.tags.length =
      c5Store.tags.length + 1 := by
  decide

/-- C5 (amended): calling `createTag` twice with names equal up to case
returns tags with the same id, and the tag collection never grows by two: it
grows by exactly one when no stored tag case-matched the name beforehand, and
by zero when one did. -/
theorem createTag_pair_same_id (st : StoreState) (n1 n2 : String)
    (now1 now2 : Nat) (h : jsToLower n1 = jsToLower n2) :
    (createTag (createTag st n1 now1).2 n2 now2).1.id = (createTag st n1 now1).1.id ∧
    (createTag (createTag st n1 now1).2 n2 now2).2.tags.length ≤ st.tags.length + 1 ∧
    ((∀ t ∈ st.tags, jsToLower t.name ≠ jsToLower n1) →
      (createTag (createTag st n1 now1).2 n2 now2).2.tags.length = st.tags.length + 1) ∧
    ((∃ t ∈ st.tags, jsToLower t.name = jsToLower n1) →
      (createTag (createTag st n1 now1).2 n2 now2).2.tags.length = st.tags.length) := by
  have hp : ∀ t : Tag,
      (decide (jsToLower t.name = jsToLower n1)) =
        (decide (jsToLower t.name = jsToLower n2)) := by
    intro t; rw [h]
  cases hfind : st.tags.find? (fun t => jsToLower t.name = jsToLower n1) with
  | some t =>
      have hfind2 : st.tags.find? (fun t => jsToLower t.name = jsToLower n2) = some t := by
        rw [← find?_ext st.tags _ _ hp]; exact hfind
      have e1 : createTag st n1 now1 = (t, st) := by
        simp [createTag, hfind]
      have e2 : createTag st n2 now2 = (t, st) := by
        simp [createTag, hfind2]
      simp only [e1]
      simp only [e2]
      refine ⟨by trivial, by omega, fun hall => ?_, fun hex => by trivial⟩
      have hpt := List.find?_some hfind
      simp only [decide_eq_true_eq] at hpt
      exact absurd hpt (hall t (List.mem_of_find?_eq_some hfind))
  | none =>
      have hfind2 : st.tags.find? (fun t => jsToLower t.name = jsToLower n2) = none := by
        rw [← find?_ext st.tags _ _ hp]; exact hfind
      have e1 : createTag st n1 now1 =
          ((⟨toString now1, n1, none⟩ : Tag),
            { st with tags := st.tags ++ [(⟨toString now1, n1, none⟩ : Tag)] }) := by
        simp [createTag, hfind]
      have happ : (st.tags ++ [(⟨toString now1, n1, none⟩ : Tag)]).find?
          (fun t => jsToLower t.name = jsToLower n2) =
          some (⟨toString now1, n1, none⟩ : Tag) := by
        rw [List.find?_append, hfind2]
        simp [List.find?_cons, h]
      have e2 : createTag { st with tags := st.tags ++ [(⟨toString now1, n1, none⟩ : Tag)] }
          n2 now2 =
          ((⟨toString now1, n1, none⟩ : Tag),
            { st with tags := st.tags ++ [(⟨toString now1, n1, none⟩ : Tag)] }) := by
        simp [createTag, happ]
      simp only [e1]
      simp only [e2]
      refine ⟨by trivial, by simp, fun hall => by simp, fun hex => ?_⟩
      obtain ⟨t, ht, hname⟩ := hex
      rw [List.find?_eq_none] at hfind
      have := hfind t ht
      simp only [decide_eq_true_eq] at this
      exact absurd hname this

/-- C5 witness: from the empty store, `createTag "Work"` then
`createTag "work"` return the same tag id and the collection grows by
exactly one. -/
theorem createTag_pair_same_id_witness :
    jsToLower "Work" = jsToLower "work" ∧
    (createTag (createTag emptyStore "Work" 11).2 "work" 12).1.id =
      (createTag emptyStore "Work" 11).1.id ∧
    (createTag (createTag emptyStore "Work" 11).2 "work" 12).2.tags.length =
      emptyStore.tags.length + 1 :=
  ⟨by decide,
   (createTag_pair_same_id emptyStore "Work" "work" 11 12 (by decide)).1,
   (createTag_pair_same_id emptyStore "Work" "work" 11 12 (by decide)).2.2.1
     (by decide)⟩

/-! ### Claim C6 — deleting a tag strips its name from every note -/

/-- C6: for every tag `T` of a store with pairwise-distinct tag ids, after
`deleteTag(T.id)` each note's `tags` list is exactly its old list with
`T.name` filtered out (so every other name survives in its relative order and
every other note field is unchanged), no note's list contains `T.name`, and
`T` is gone from the tag collection. -/
theorem deleteTag_strips (st : StoreState) (T : Tag)
    (hnd : (st.tags.map Tag.id).Nodup) (hT : T ∈ st.tags) :
    ((deleteTag st T.id).notes =
      st.notes.map (fun n => { n with tags := n.tags.filter (fun s => s ≠ T.name) })) ∧
    (∀ n ∈ (deleteTag st T.id).notes, T.name ∉ n.tags) ∧
    T ∉ (deleteTag st T.id).tags := by
  have hfind := find?_id_of_nodup st.tags T hnd hT
  refine ⟨?_, ?_, ?_⟩
  · simp [deleteTag, hfind]
  · intro n hn
    simp only [deleteTag, hfind, List.mem_map] at hn
    obtain ⟨m, hm, rfl⟩ := hn
    intro hmem
    simp only [List.mem_filter, decide_eq_true_eq] at hmem
    exact absurd rfl hmem.2
  · intro hmem
    simp only [deleteTag, List.mem_filter, decide_eq_true_eq] at hmem
    exact absurd rfl hmem.2

/-- The tag deleted by the C6 witness. -/
def c6Tag : Tag := { id := "t1", name := "work", color := none }

/-- A second tag kept by the C6 witness. -/
def c6OtherTag : Tag := { id := "t2", name := "home", color := none }

/-- A note carrying both C6 witness tag names. -/
def c6Note : Note :=
  { id := "n1", title := "Untitled Note", content := "", folderId := none,
    tags := ["work", "home"], createdAt := 0, updatedAt := 0, fontSize := 16 }

/-- The concrete store used to witness C6. -/
def c6Store : StoreState :=
  { notes := [c6Note], folders := [], tags := [c6Tag, c6OtherTag],
    selectedNoteId := none, selectedFolderId := none }

/-- C6 witness: the hypotheses hold in `c6Store`, and deleting `c6Tag`
removes it from the tag collection. -/
theorem deleteTag_strips_witness :
    (c6Store.tags.map Tag.id).Nodup ∧
    c6Tag ∈ c6Store.tags ∧
    c6Tag ∉ (deleteTag c6Store c6Tag.id).tags :=
  ⟨by decide, by decide,
    (deleteTag_strips c6Store c6Tag (by decide) (by decide)).2.2⟩

/-! ### Claim C7 — operations on an unknown id

`updateNote`, `deleteNote`, `updateFolder` and `deleteTag` on an id matching
nothing leave the three collections untouched.  `deleteFolder`, however,
unconditionally nullifies `folderId` on every note referencing the deleted id,
so on a store holding a dangling `folderId` it changes the notes collection
even though the id matches no entity in any collection. -/

/-- A note whose `folderId` dangles (references no existing folder). -/
def c7DanglingNote : Note :=
  { id := "n1", title := "t", content := "", folderId := some "f1",
    tags := [], createdAt := 0, updatedAt := 0, fontSize := 16 }

/-- A store in which `"f1"` matches no note id, no folder, and no tag, yet is
referenced by a note's `folderId`. -/
def c7DanglingStore : StoreState :=
  { notes := [c7DanglingNote], folders := [], tags := [],
    selectedNoteId := none, selectedFolderId := none }

/-- C7 counterexample: `"f1"` matches no entity of `c7DanglingStore` (its
folder and tag collections are empty and its only note has id `"n1"`), yet
`deleteFolder "f1"` changes the notes collection by nullifying the dangling
reference. -/
theorem deleteFolder_unknown_id_dangling_counterexample :
    c7DanglingStore.folders = [] ∧
    c7DanglingStore.tags = [] ∧
    c7DanglingStore.notes.map Note.id = ["n1"] ∧
    (deleteFolder c7DanglingStore "f1").notes ≠ c7DanglingStore.notes := by
  decide

/-- C7 (amended): on an id carried by no note, no folder and no tag,
`updateNote`, `deleteNote`, `updateFolder` and `deleteTag` leave all three
collections exactly as they were, and so does `deleteFolder` provided
additionally that no note's `folderId` references the id (as in any store
satisfying the referential-integrity invariant); none of these operations can
throw. -/
theorem unknown_id_noop (st : StoreState) (id : String)
    (u : NoteUpdates) (fu : FolderUpdates) (now : Nat)
    (hn : ∀ n ∈ st.notes, n.id ≠ id)
    (hf : ∀ f ∈ st.folders, f.id ≠ id)
    (ht : ∀ t ∈ st.tags, t.id ≠ id) :
    collections (updateNote st id u now) = collections st ∧
    collections (deleteNote st id) = collections st ∧
    collections (updateFolder st id fu) = collections st ∧
    collections (deleteTag st id) = collections st ∧
    ((∀ n ∈ st.notes, n.folderId ≠ some id) →
      collections (deleteFolder st id) = collections st) := by
  have hfindTag : st.tags.find? (fun t => t.id = id) = none := by
    rw [List.find?_eq_none]
    intro t htm
    simpa using ht t htm
  refine ⟨?_, ?_, ?_, ?_, ?_⟩
  · show (st.notes.map (fun note =>
        if note.id = id then applyNoteUpdates note u now else note),
        st.folders, st.tags) = (st.notes, st.folders, st.tags)
    rw [map_eq_self st.notes _ (fun n hmem => by simp [hn n hmem])]
  · show (st.notes.filter (fun note => note.id ≠ id),
        st.folders, st.tags) = (st.notes, st.folders, st.tags)
    rw [filter_eq_self_of st.notes _ (fun n hmem => by simpa using hn n hmem)]
  · show (st.notes, st.folders.map (fun folder =>
        if folder.id = id then applyFolderUpdates folder fu else folder),
        st.tags) = (st.notes, st.folders, st.tags)
    rw [map_eq_self st.folders _ (fun f hmem => by simp [hf f hmem])]
  · show (st.notes.map (fun note =>
        { note with tags := note.tags.filter (fun tagName =>
            match st.tags.find? (fun t => t.id = id) with
            | some t => tagName ≠ t.name
            | none => true) }),
        st.folders,
        st.tags.filter (fun t => t.id ≠ id)) = (st.notes, st.folders, st.tags)
    rw [map_eq_self st.notes _ (fun n hmem => by simp [hfindTag]),
      filter_eq_self_of st.tags _ (fun t hmem => by simpa using ht t hmem)]
  · intro hd
    show (st.notes.map (fun note =>
        if note.folderId = some id then { note with folderId := none } else note),
        st.folders.filter (fun folder => folder.id ≠ id),
        st.tags) = (st.notes, st.folders, st.tags)
    rw [map_eq_self st.notes _ (fun n hmem => by simp [hd n hmem]),
      filter_eq_self_of st.folders _ (fun f hmem => by simpa using hf f hmem)]

/-- The end-to-end C7 witness store: one note created at the root. -/
def c7Store : StoreState := (createNote emptyStore none 42).2

/-- C7 witness: after `createNote()` at the root, `deleteFolder` on the
nonexistent id `"nonexistent"` leaves the collections unchanged and the note
count at 1; and even on the dangling-reference store, `deleteTag` on the
unknown id `"f1"` is a no-op (the proviso is needed only for
`deleteFolder`). -/
theorem unknown_id_noop_witness :
    collections (deleteFolder c7Store "nonexistent") = collections c7Store ∧
    (deleteFolder c7Store "nonexistent").notes.length = 1 ∧
    collections (deleteTag c7DanglingStore "f1") = collections c7DanglingStore :=
  ⟨(unknown_id_noop c7Store "nonexistent" {} {} 0 (by decide) (by decide)
      (by decide)).2.2.2.2 (by decide),
   by decide,
   (unknown_id_noop c7DanglingStore "f1" {} {} 0 (by decide) (by decide)
      (by decide)).2.2.2.1⟩

/-! ### Claim C8 — note ids after creation

`updateNote` merges the whole partial-update object over the note, so an
update map that mentions an `id` field does replace the note's id; the id is
stable under every store operation only when the update maps leave `id`
absent. -/

/-- The C8 store: one note created with id `"7"`. -/
def c8Store : StoreState := (createNote emptyStore none 7).2

/-- C8 counterexample: `updateNote` with a partial map containing an `id`
field replaces the existing note's id, so ids are not immutable under
partial-field maps that mention `id`. -/
theorem updateNote_changes_id_counterexample :
    (updateNote c8Store "7" { id := some "changed" } 8).notes.map Note.id =
      ["changed"] ∧
    ¬ (updateNote c8Store "7" { id := some "changed" } 8).notes.map Note.id =
      c8Store.notes.map Note.id := by
  decide

/-- C8 (amended): a note's id is assigned at creation and is never altered by
any store operation, except that an `updateNote` whose partial map explicitly
contains an `id` field overwrites it.  Concretely: `updateNote` with an
id-free map, `deleteFolder` and `deleteTag` preserve the note-id sequence;
`deleteNote` leaves the surviving notes (hence their ids) intact;
`createNote` only appends its new note; and `createFolder`, `updateFolder`
and `createTag` do not touch the notes at all. -/
theorem note_ids_stable (st : StoreState) (uid did fid tid : String)
    (u : NoteUpdates) (fu : FolderUpdates) (nfid pid : Option String)
    (name : String) (now : Nat) (hu : u.id = none) :
    (updateNote st uid u now).notes.map Note.id = st.notes.map Note.id ∧
    (deleteNote st did).notes.Sublist st.notes ∧
    (deleteFolder st fid).notes.map Note.id = st.notes.map Note.id ∧
    (deleteTag st tid).notes.map Note.id = st.notes.map Note.id ∧
    (createNote st nfid now).2.notes = st.notes ++ [(createNote st nfid now).1] ∧
    (createFolder st name pid now).2.notes = st.notes ∧
    (updateFolder st fid fu).notes = st.notes ∧
    (createTag st name now).2.notes = st.notes := by
  refine ⟨?_, ?_, ?_, ?_, rfl, rfl, rfl, ?_⟩
  · show (st.notes.map (fun note =>
        if note.id = uid then applyNoteUpdates note u now else note)).map Note.id =
      st.notes.map Note.id
    rw [List.map_map]
    refine map_eq_self' st.notes _ _ (fun n hmem => ?_)
    by_cases h : n.id = uid
    · simp [h, applyNoteUpdates, hu]
    · simp [h]
  · exact List.filter_sublist st.notes
  · show (st.notes.map (fun note =>
        if note.folderId = some fid then { note with folderId := none } else note)).map
        Note.id = st.notes.map Note.id
    rw [List.map_map]
    refine map_eq_self' st.notes _ _ (fun n hmem => ?_)
    by_cases h : n.folderId = some fid
    · simp [h]
    · simp [h]
  · show (st.notes.map (fun (note : Note) =>
        { note with tags := note.tags.filter (fun (s : String) =>
            match st.tags.find? (fun (t : Tag) => t.id = tid) with
            | some t => s ≠ t.name
            | none => true) })).map Note.id =
      st.notes.map Note.id
    rw [List.map_map]
    exact map_eq_self' st.notes _ _ (fun n hmem => rfl)
  · rcases hf2 : st.tags.find? (fun t => jsToLower t.name = jsToLower name) with _ | t <;>
      simp [createTag, hf2]

/-- C8 witness: an id-free title update on the note with id `"7"` leaves the
note-id sequence unchanged. -/
theorem note_ids_stable_witness :
    ({ title := some "Essay" } : NoteUpdates).id = none ∧
    (updateNote c8Store "7" { title := some "Essay" } 9).notes.map Note.id =
      c8Store.notes.map Note.id :=
  ⟨rfl,
   (note_ids_stable c8Store "7" "x" "y" "z" { title := some "Essay" } {}
      none none "nm" 9 rfl).1⟩

/-! ### Claim C9 — persistence round trip for notes -/

/-- C9: saving any collection of notes through the persistence adapter and
loading it back returns exactly the original collection, field for field. -/
theorem storage_notes_roundtrip (ls : LocalStorage) (notes : List Note) :
    storageGetNotes (storageSaveNotes ls notes) = LoadResult.value notes := by
  simp [storageGetNotes, storageSaveNotes, LocalStorage.getItem, LocalStorage.setItem,
    jsonStringify, jsonParse, JsText.isTruthy, notesFromJson, notesFromJsonList_map]

/-! ### Claim C10 — createTag on an existing case-match is a pure read -/

/-- C10: when the store already holds a tag whose name case-matches the
argument, `createTag` returns a stored tag (with its original id and original
casing, matching the argument up to case) and leaves the whole store — in
particular the tag collection — completely unchanged. -/
theorem createTag_existing_frame (st : StoreState) (name : String) (now : Nat)
    (h : ∃ t ∈ st.tags, jsToLower t.name = jsToLower name) :
    (createTag st name now).2 = st ∧
    (createTag st name now).1 ∈ st.tags ∧
    jsToLower (createTag st name now).1.name = jsToLower name := by
  rcases hfind : st.tags.find? (fun t => jsToLower t.name = jsToLower name) with _ | t
  · rw [List.find?_eq_none] at hfind
    obtain ⟨t, ht, hname⟩ := h
    have := hfind t ht
    simp only [decide_eq_true_eq] at this
    exact absurd hname this
  · have e : createTag st name now = (t, st) := by
      simp [createTag, hfind]
    rw [e]
    have hpt := List.find?_some hfind
    simp only [decide_eq_true_eq] at hpt
    exact ⟨rfl, List.mem_of_find?_eq_some hfind, hpt⟩

/-- The stored tag for the C10 witness. -/
def c10Tag : Tag := { id := "t1", name := "WORK", color := none }

/-- The concrete store used to witness C10. -/
def c10Store : StoreState :=
  { notes := [], folders := [], tags := [c10Tag],
    selectedNoteId := none, selectedFolderId := none }

/-- C10 witness: `createTag "work"` on a store holding `"WORK"` returns the
stored tag with its original id `"t1"` and original casing `"WORK"`, and
leaves the store unchanged. -/
theorem createTag_existing_frame_witness :
    jsToLower c10Tag.name = jsToLower "work" ∧
    (createTag c10Store "work" 9).2 = c10Store ∧
    (createTag c10Store "work" 9).1.name = "WORK" ∧
    (createTag c10Store "work" 9).1.id = "t1" :=
  ⟨by decide,
   (createTag_existing_frame c10Store "work" 9 ⟨c10Tag, by decide, by decide⟩).1,
   by decide, by decide⟩
